import Mathlib

/-!
# ThreadPlanShouldStopHere: the stepping decision and its dispatch

A shallow embedding of `source/Target/ThreadPlanShouldStopHere.cpp`.

* A C++ reference parameter that a callee may write (`Flags &flags`, the plan
  behind `ThreadPlan *current_plan`) is returned next to the result.
* A pointer that may be null (`StackFrame *`, `Symbol *`, `ThreadPlanSP`, a
  callback slot) is an `Option`.
* Unsigned 64-bit arithmetic is `Nat` arithmetic reduced modulo `2 ^ 64`.
* `Log` output and the `Status &status` out-parameter carry diagnostics only;
  no branch of the file reads them, and they are left out.
-/

namespace lldb_private

/-! ## Enumerations -/

/-- Modelled from the spec: the declaration of `lldb::FrameComparison` is not among
the source files. The spec names `Older`, `Younger` and `SameParent`; the remaining
enumerators are values the code never tests for, kept so that statements over every
comparison cover them as well. -/
inductive FrameComparison where
  | eFrameCompareInvalid
  | eFrameCompareUnknown
  | eFrameCompareEqual
  | eFrameCompareSameParent
  | eFrameCompareYounger
  | eFrameCompareOlder
  deriving DecidableEq, Repr

/-- Modelled from the spec: the declaration of `ThreadPlan::ThreadPlanKind` is not among
the source files. The code only asks whether the kind is `eKindStepInRange`. -/
inductive ThreadPlanKind where
  | eKindGeneric
  | eKindNull
  | eKindBase
  | eKindCallFunction
  | eKindPython
  | eKindStepInstruction
  | eKindStepOut
  | eKindStepOverBreakpoint
  | eKindStepOverRange
  | eKindStepInRange
  | eKindRunToAddress
  | eKindStepThrough
  | eKindStepUntil
  | eKindTestCondition
  deriving DecidableEq, Repr

/-- Modelled from the spec: the declaration of `lldb::Vote` is not among the source
files; `eVoteNoOpinion` is the indeterminate vote. -/
inductive Vote where
  | eVoteNo
  | eVoteNoOpinion
  | eVoteYes
  deriving DecidableEq, Repr

/-- Modelled from the spec: the declaration of `lldb::RunMode` is not among the source
files. -/
inductive RunMode where
  | eOnlyThisThread
  | eAllThreads
  | eOnlyDuringStepping
  deriving DecidableEq, Repr

/-- Modelled from the spec: the declaration of `lldb_private::LazyBool` is not among the
source files. -/
inductive LazyBool where
  | eLazyBoolCalculate
  | eLazyBoolNo
  | eLazyBoolYes
  deriving DecidableEq, Repr

/-! ## Decision flags -/

/-- Modelled from the spec: `lldb_private::Flags` is declared outside the source files;
the spec describes it as a bitmask of independently togglable switches. -/
structure Flags where
  m_flags : Nat
  deriving DecidableEq, Repr

/-- Modelled from the spec: `Flags::Test(bit)` holds when the mask has a bit of `bit`
set. -/
def Flags.Test (flags : Flags) (bit : Nat) : Bool :=
  (flags.m_flags &&& bit) != 0

/-- Modelled from the spec: the flag enumerators are declared in
`ThreadPlanShouldStopHere.h`, which is not among the source files; each is a bit of its
own. The value of `eNone`. -/
def eNone : Nat := 0

/-- Modelled from the spec: the bit of the `AvoidNoDebugOnStepIn` switch. -/
def eStepInAvoidNoDebug : Nat := 1 <<< 1

/-- Modelled from the spec: the bit of the `AvoidNoDebugOnStepOut` switch. -/
def eStepOutAvoidNoDebug : Nat := 1 <<< 2

/-! ## Addresses, ranges, symbols, frames -/

/-- The number of values of `lldb::addr_t`, an unsigned 64-bit integer. -/
def ADDR_MODULUS : Nat := 2 ^ 64

/-- Modelled from the spec: `Address` is declared outside the source files; an address
is taken as its 64-bit file address. -/
structure Address where
  m_offset : Nat
  deriving DecidableEq, Repr

/-- Modelled from the spec: `Address::Slide(offset)` moves the address by `offset`,
in 64-bit two-complement arithmetic. -/
def Address.Slide (addr : Address) (offset : Nat) : Address :=
  ⟨(addr.m_offset + offset) % ADDR_MODULUS⟩

/-- Modelled from the spec: `AddressRange` is declared outside the source files; the
spec calls it the contiguous instruction range backing a line-table entry or a whole
function: the addresses from `m_base_addr` up to, not including,
`m_base_addr + m_byte_size`. -/
structure AddressRange where
  m_base_addr : Address
  m_byte_size : Nat
  deriving DecidableEq, Repr

/-- Modelled from the spec: `AddressRange::ContainsFileAddress(addr)`, membership of an
address in the contiguous range. -/
def AddressRange.ContainsFileAddress (range : AddressRange) (addr : Address) : Bool :=
  decide (range.m_base_addr.m_offset ≤ addr.m_offset) &&
    decide (addr.m_offset - range.m_base_addr.m_offset < range.m_byte_size)

/-- Modelled from the spec: `Symbol` is declared outside the source files. The code
reads its address, its byte size and whether its value is an address; `m_uid` tells
symbols apart for the thunk classifier. -/
structure Symbol where
  m_uid : Nat
  m_addr_range : AddressRange
  m_value_is_address : Bool
  deriving DecidableEq, Repr

/-- The accessor `Symbol::GetAddress()`. -/
def Symbol.GetAddress (symbol : Symbol) : Address := symbol.m_addr_range.m_base_addr

/-- The accessor `Symbol::GetByteSize()`. -/
def Symbol.GetByteSize (symbol : Symbol) : Nat := symbol.m_addr_range.m_byte_size

/-- The accessor `Symbol::ValueIsAddress()`. -/
def Symbol.ValueIsAddress (symbol : Symbol) : Bool := symbol.m_value_is_address

/-- Modelled from the spec: `LineEntry` is declared outside the source files; the frame
service describes it as a line number with an address range. -/
structure LineEntry where
  line : Nat
  range : AddressRange
  deriving DecidableEq, Repr

/-- A `SymbolContext` as far as the code reads it: the symbol pointer, which may be
null, and the line entry, which is a member by value. -/
structure SymbolContext where
  symbol : Option Symbol
  line_entry : LineEntry
  deriving DecidableEq, Repr

/-- Modelled from the spec: the frame service of the spec, `hasDebugInfo(frame)`,
`lineEntry(frame)` (absent or present) and `symbol(frame)` (absent or present). -/
structure StackFrame where
  m_has_debug_info : Bool
  m_symbol : Option Symbol
  m_line_entry : Option LineEntry
  deriving DecidableEq, Repr

/-- Modelled from the spec: `Process` is declared outside the source files; the code
only hands it to the thunk classifier. -/
structure Process where
  m_pid : Nat
  deriving DecidableEq, Repr

/-- The external collaborators of the decision code.

* `IsSymbolAnyRuntimeThunk` is `LanguageRuntime::IsSymbolAnyRuntimeThunk`, the runtime
  thunk classifier, an oracle of the spec.
* `m_no_line_entry` is the value of a default-constructed `LineEntry`, which is what
  `SymbolContext::line_entry` holds when the frame has no line-table entry; the
  constructor is outside the source files, so the value is a parameter. -/
structure Collaborators where
  IsSymbolAnyRuntimeThunk : Process → Symbol → Bool
  m_no_line_entry : LineEntry

/-- The accessor `StackFrame::HasDebugInformation()`. -/
def StackFrame.HasDebugInformation (frame : StackFrame) : Bool := frame.m_has_debug_info

/-- The call `StackFrame::GetSymbolContext(scope)`: the symbol and the line entry of the
frame. The code reads from the result only members named in the scope it passed. -/
def StackFrame.GetSymbolContext (env : Collaborators) (frame : StackFrame) : SymbolContext :=
  { symbol := frame.m_symbol
    line_entry := match frame.m_line_entry with
      | some entry => entry
      | none => env.m_no_line_entry }

/-! ## Plans and the plan stack -/

/-- A plan as one of the three `Thread::QueueThreadPlanFor...` entry points called in
the file builds it: the entry point and the arguments of the call, in order (without
`status`).

Modelled from the spec: the entry points are declared outside the source files. The
parameter names of the step-out entry point are those of its declaration:
`abort_other_plans`, `addr_context`, `first_insn`, `stop_other_threads`, `stop_vote`,
`run_vote`, `frame_idx`, `continue_to_next_branch`. -/
inductive QueuedPlan where
  | StepInRangeNoShouldStop (abort_other_plans : Bool) (range : AddressRange)
      (addr_context : SymbolContext) (step_in_target : Option String)
      (stop_other_threads : RunMode) (step_in_avoids_code_without_debug_info : LazyBool)
      (step_out_avoids_code_without_debug_info : LazyBool)
  | StepOverRange (abort_other_plans : Bool) (range : AddressRange)
      (addr_context : SymbolContext) (stop_other_threads : RunMode)
      (step_out_avoids_code_without_debug_info : LazyBool)
  | StepOutNoShouldStop (abort_other_plans : Bool) (addr_context : Option SymbolContext)
      (first_insn : Bool) (stop_other_threads : Bool) (stop_vote : Vote) (run_vote : Vote)
      (frame_idx : Nat) (continue_to_next_branch : Bool)
  deriving DecidableEq, Repr

/-- A `ThreadPlanSP`: a shared pointer to a plan, or null. -/
abbrev ThreadPlanSP := Option QueuedPlan

/-- The kind of a queued plan. -/
def QueuedPlan.GetKind : QueuedPlan → ThreadPlanKind
  | .StepInRangeNoShouldStop .. => .eKindStepInRange
  | .StepOverRange .. => .eKindStepOverRange
  | .StepOutNoShouldStop .. => .eKindStepOut

/-- Whether the plan was requested through an entry point that switches the should-stop
checks of the new plan off: the two `...NoShouldStop` entry points do,
`QueueThreadPlanForStepOverRange` does not. -/
def QueuedPlan.NoShouldStop : QueuedPlan → Bool
  | .StepInRangeNoShouldStop .. => true
  | .StepOverRange .. => false
  | .StepOutNoShouldStop .. => true

/-- The address range of a range-bound plan; a step-out plan has none. -/
def QueuedPlan.GetRange : QueuedPlan → Option AddressRange
  | .StepInRangeNoShouldStop _ range _ _ _ _ _ => some range
  | .StepOverRange _ range _ _ _ => some range
  | .StepOutNoShouldStop .. => none

/-- Whether the plan is range-bound: step-in-range or step-over-range. -/
def QueuedPlan.IsRangeBound (plan : QueuedPlan) : Bool := plan.GetRange.isSome

/-- A thread as far as the code reaches into it: its stack frames (index 0 first), its
process, and its plan stack (top first). -/
structure Thread where
  m_frames : List StackFrame
  m_process : Process
  m_plan_stack : List QueuedPlan
  deriving DecidableEq, Repr

/-- The call `Thread::GetStackFrameAtIndex(idx).get()`: the frame, or null. -/
def Thread.GetStackFrameAtIndex (thread : Thread) (idx : Nat) : Option StackFrame :=
  thread.m_frames.get? idx

/-- The accessor `Thread::GetProcess()`. -/
def Thread.GetProcess (thread : Thread) : Process := thread.m_process

/-- Modelled from the spec: `Thread::QueueThreadPlan`, outside the source files; a plan
that is queued is pushed on top of the plan stack of the thread. -/
def Thread.QueueThreadPlan (thread : Thread) (plan : QueuedPlan) : Thread :=
  { thread with m_plan_stack := plan :: thread.m_plan_stack }

/-- Modelled from the spec: `Thread::QueueThreadPlanForStepInRangeNoShouldStop`, outside
the source files; it builds the plan from its arguments, queues it and returns it. -/
def Thread.QueueThreadPlanForStepInRangeNoShouldStop (thread : Thread)
    (abort_other_plans : Bool) (range : AddressRange) (addr_context : SymbolContext)
    (step_in_target : Option String) (stop_other_threads : RunMode)
    (step_in_avoids_code_without_debug_info : LazyBool)
    (step_out_avoids_code_without_debug_info : LazyBool) : ThreadPlanSP × Thread :=
  let plan := QueuedPlan.StepInRangeNoShouldStop abort_other_plans range addr_context
    step_in_target stop_other_threads step_in_avoids_code_without_debug_info
    step_out_avoids_code_without_debug_info
  (some plan, thread.QueueThreadPlan plan)

/-- Modelled from the spec: `Thread::QueueThreadPlanForStepOverRange`, outside the
source files; it builds the plan from its arguments, queues it and returns it. -/
def Thread.QueueThreadPlanForStepOverRange (thread : Thread)
    (abort_other_plans : Bool) (range : AddressRange) (addr_context : SymbolContext)
    (stop_other_threads : RunMode)
    (step_out_avoids_code_without_debug_info : LazyBool) : ThreadPlanSP × Thread :=
  let plan := QueuedPlan.StepOverRange abort_other_plans range addr_context
    stop_other_threads step_out_avoids_code_without_debug_info
  (some plan, thread.QueueThreadPlan plan)

/-- Modelled from the spec: `Thread::QueueThreadPlanForStepOutNoShouldStop`, outside the
source files; it builds the plan from its arguments, queues it and returns it. -/
def Thread.QueueThreadPlanForStepOutNoShouldStop (thread : Thread)
    (abort_other_plans : Bool) (addr_context : Option SymbolContext) (first_insn : Bool)
    (stop_other_threads : Bool) (stop_vote : Vote) (run_vote : Vote) (frame_idx : Nat)
    (continue_to_next_branch : Bool) : ThreadPlanSP × Thread :=
  let plan := QueuedPlan.StepOutNoShouldStop abort_other_plans addr_context first_insn
    stop_other_threads stop_vote run_vote frame_idx continue_to_next_branch
  (some plan, thread.QueueThreadPlan plan)

/-- The plan that owns the decision object (`current_plan`, `m_owner`): the code reads
its kind and reaches its thread. -/
structure ThreadPlan where
  m_kind : ThreadPlanKind
  m_thread : Thread
  deriving DecidableEq, Repr

/-- The accessor `ThreadPlan::GetKind()`. -/
def ThreadPlan.GetKind (plan : ThreadPlan) : ThreadPlanKind := plan.m_kind

/-- The accessor `ThreadPlan::GetThread()`. -/
def ThreadPlan.GetThread (plan : ThreadPlan) : Thread := plan.m_thread

/-- The baton, a `void *` the code passes along and never looks into. -/
abbrev Baton := Nat

/-! ## The decision code -/

/-- The difference `a - b` of two `lldb::addr_t` values, as unsigned 64-bit arithmetic
computes it. -/
def addr_sub (a b : Nat) : Nat :=
  (a % ADDR_MODULUS + ADDR_MODULUS - b % ADDR_MODULUS) % ADDR_MODULUS

/-- The function `ThreadPlanShouldStopHere::DefaultShouldStopHereCallback`. It writes
neither `flags` nor the plan, so only its result is returned. -/
def DefaultShouldStopHereCallback (env : Collaborators) (current_plan : ThreadPlan)
    (flags : Flags) (operation : FrameComparison) (_baton : Baton) : Bool :=
  let should_stop_here := true
  match current_plan.GetThread.GetStackFrameAtIndex 0 with
  | none => true
  | some frame =>
    let should_stop_here :=
      if (operation == .eFrameCompareOlder && flags.Test eStepOutAvoidNoDebug) ||
          (operation == .eFrameCompareYounger && flags.Test eStepInAvoidNoDebug) ||
          (operation == .eFrameCompareSameParent && flags.Test eStepInAvoidNoDebug) then
        if !frame.HasDebugInformation then false else should_stop_here
      else should_stop_here
    -- Check whether the frame we are in is a language runtime thunk, only for step out:
    let should_stop_here :=
      if operation == .eFrameCompareOlder then
        match (frame.GetSymbolContext env).symbol with
        | some symbol =>
          let process_sp := current_plan.GetThread.GetProcess
          if env.IsSymbolAnyRuntimeThunk process_sp symbol then false else should_stop_here
        | none => should_stop_here
      else should_stop_here
    -- Always avoid code with line number 0.
    let should_stop_here :=
      let sc := frame.GetSymbolContext env
      if sc.line_entry.line == 0 then false else should_stop_here
    should_stop_here

/-- The function `ThreadPlanShouldStopHere::DefaultStepFromHereCallback`. It queues a
plan on the thread of `current_plan`, so the plan with its thread is returned next to
the result; it does not write `flags`. -/
def DefaultStepFromHereCallback (env : Collaborators) (current_plan : ThreadPlan)
    (_flags : Flags) (_operation : FrameComparison) (_baton : Baton) :
    ThreadPlanSP × ThreadPlan :=
  let stop_others := false
  let frame_index := 0
  let return_plan_sp : ThreadPlanSP := none
  match current_plan.GetThread.GetStackFrameAtIndex 0 with
  | none => (return_plan_sp, current_plan)
  | some frame =>
    let sc := frame.GetSymbolContext env
    let (return_plan_sp, thread) :=
      if sc.line_entry.line == 0 then
        let range := sc.line_entry.range
        -- If this is a runtime thunk, just step out:
        let just_step_out := false
        let just_step_out :=
          match sc.symbol with
          | some symbol =>
            let process_sp := current_plan.GetThread.GetProcess
            let just_step_out :=
              if env.IsSymbolAnyRuntimeThunk process_sp symbol then true else just_step_out
            -- If the whole function is marked line 0 just step out.
            if !just_step_out && symbol.ValueIsAddress then
              let symbol_end := symbol.GetAddress.Slide (addr_sub symbol.GetByteSize 1)
              if range.ContainsFileAddress symbol.GetAddress &&
                  range.ContainsFileAddress symbol_end then true
              else just_step_out
            else just_step_out
          | none => just_step_out
        if !just_step_out then
          -- If the current plan is a "Step In" plan we should use step in, otherwise
          -- just step over:
          if current_plan.GetKind == .eKindStepInRange then
            current_plan.GetThread.QueueThreadPlanForStepInRangeNoShouldStop
              false range sc none .eOnlyDuringStepping .eLazyBoolCalculate .eLazyBoolNo
          else
            current_plan.GetThread.QueueThreadPlanForStepOverRange
              false range sc .eOnlyDuringStepping .eLazyBoolNo
        else (return_plan_sp, current_plan.GetThread)
      else (return_plan_sp, current_plan.GetThread)
    let (return_plan_sp, thread) :=
      match return_plan_sp with
      | none =>
        thread.QueueThreadPlanForStepOutNoShouldStop
          false none true stop_others .eVoteNo .eVoteNoOpinion frame_index true
      | some plan => (some plan, thread)
    (return_plan_sp, { current_plan with m_thread := thread })

/-- A should-stop policy, the type of `should_stop_here_callback`. The plan and the
flags are passed by pointer and by reference, so a policy returns them next to its
answer. -/
abbrev ShouldStopHereCallback :=
  ThreadPlan → Flags → FrameComparison → Baton → Bool × ThreadPlan × Flags

/-- A step-from-here policy, the type of `step_from_here_callback`; it returns the plan
and the flags next to its answer as well. -/
abbrev StepFromHereCallback :=
  ThreadPlan → Flags → FrameComparison → Baton → ThreadPlanSP × ThreadPlan × Flags

/-- The pair of policies, `ThreadPlanShouldStopHereCallbacks`; a slot may be empty. -/
structure ThreadPlanShouldStopHereCallbacks where
  should_stop_here_callback : Option ShouldStopHereCallback
  step_from_here_callback : Option StepFromHereCallback

/-- The members of a `ThreadPlanShouldStopHere` object. -/
structure ThreadPlanShouldStopHere where
  m_callbacks : ThreadPlanShouldStopHereCallbacks
  m_baton : Baton
  m_owner : ThreadPlan
  m_flags : Flags

/-- The default should-stop policy as it sits in a callback slot: the answer of
`DefaultShouldStopHereCallback`, with the plan and the flags as they were passed. -/
def DefaultShouldStopHereSlot (env : Collaborators) : ShouldStopHereCallback :=
  fun current_plan flags operation baton =>
    (DefaultShouldStopHereCallback env current_plan flags operation baton, current_plan, flags)

/-- The default step-from-here policy as it sits in a callback slot: the answer and the
plan of `DefaultStepFromHereCallback`, with the flags as they were passed. -/
def DefaultStepFromHereSlot (env : Collaborators) : StepFromHereCallback :=
  fun current_plan flags operation baton =>
    let (return_plan_sp, plan) :=
      DefaultStepFromHereCallback env current_plan flags operation baton
    (return_plan_sp, plan, flags)

/-- The constructor `ThreadPlanShouldStopHere(ThreadPlan *owner)`: both default
policies, a null baton, no flag set. -/
def ThreadPlanShouldStopHere.new (env : Collaborators) (owner : ThreadPlan) :
    ThreadPlanShouldStopHere :=
  { m_callbacks :=
      { should_stop_here_callback := some (DefaultShouldStopHereSlot env)
        step_from_here_callback := some (DefaultStepFromHereSlot env) }
    m_baton := 0
    m_owner := owner
    m_flags := ⟨eNone⟩ }

/-- The method `ThreadPlanShouldStopHere::InvokeShouldStopHereCallback`. -/
def ThreadPlanShouldStopHere.InvokeShouldStopHereCallback (self : ThreadPlanShouldStopHere)
    (operation : FrameComparison) : Bool × ThreadPlanShouldStopHere :=
  let should_stop_here := true
  match self.m_callbacks.should_stop_here_callback with
  | some callback =>
    let (should_stop_here, owner, flags) :=
      callback self.m_owner self.m_flags operation self.m_baton
    (should_stop_here, { self with m_owner := owner, m_flags := flags })
  | none => (should_stop_here, self)

/-- The method `ThreadPlanShouldStopHere::QueueStepOutFromHerePlan`; `flags` is a
reference parameter and is returned as the policy left it. -/
def ThreadPlanShouldStopHere.QueueStepOutFromHerePlan (self : ThreadPlanShouldStopHere)
    (flags : Flags) (operation : FrameComparison) :
    ThreadPlanSP × ThreadPlanShouldStopHere × Flags :=
  let return_plan_sp : ThreadPlanSP := none
  match self.m_callbacks.step_from_here_callback with
  | some callback =>
    let (return_plan_sp, owner, flags) := callback self.m_owner flags operation self.m_baton
    (return_plan_sp, { self with m_owner := owner }, flags)
  | none => (return_plan_sp, self, flags)

/-- The method `ThreadPlanShouldStopHere::CheckShouldStopHereAndQueueStepOut`, the
Dispatch operation of the spec; it passes `m_flags` by reference. -/
def ThreadPlanShouldStopHere.CheckShouldStopHereAndQueueStepOut
    (self : ThreadPlanShouldStopHere) (operation : FrameComparison) :
    ThreadPlanSP × ThreadPlanShouldStopHere :=
  let (should_stop_here, self) := self.InvokeShouldStopHereCallback operation
  if !should_stop_here then
    let (return_plan_sp, self, flags) := self.QueueStepOutFromHerePlan self.m_flags operation
    (return_plan_sp, { self with m_flags := flags })
  else (none, self)

/-- The request the default step-from-here policy falls back to: the arguments of its
call of `QueueThreadPlanForStepOutNoShouldStop`. -/
def stepOutRequest : QueuedPlan :=
  .StepOutNoShouldStop false none true false .eVoteNo .eVoteNoOpinion 0 true

/-! ## Sample states -/

/-- A classifier that calls the symbols with an odd identifier runtime thunks, and a
default line entry of line zero over the empty range at address zero. -/
def sampleEnv : Collaborators :=
  { IsSymbolAnyRuntimeThunk := fun _ symbol => symbol.m_uid % 2 == 1
    m_no_line_entry := ⟨0, ⟨⟨0⟩, 0⟩⟩ }

/-- A thread with the one frame given, process 1 and an empty plan stack. -/
def sampleThread (frame : StackFrame) : Thread :=
  { m_frames := [frame], m_process := ⟨1⟩, m_plan_stack := [] }

/-- A thread without any frame. -/
def sampleThreadNoFrame : Thread :=
  { m_frames := [], m_process := ⟨1⟩, m_plan_stack := [] }

/-- A symbol of 64 bytes at address 4096 that is no thunk for `sampleEnv`. -/
def sampleSymbol : Symbol :=
  { m_uid := 2, m_addr_range := ⟨⟨4096⟩, 64⟩, m_value_is_address := true }

/-- A symbol of 64 bytes at address 4096 that `sampleEnv` classifies as a thunk. -/
def sampleThunk : Symbol :=
  { m_uid := 3, m_addr_range := ⟨⟨4096⟩, 64⟩, m_value_is_address := true }

/-- A should-stop policy that always answers "do not stop" and writes nothing. -/
def neverStopPolicy : ShouldStopHereCallback :=
  fun current_plan flags _ _ => (false, current_plan, flags)

/-- A step-from-here policy that produces no request and writes nothing. -/
def noRequestPolicy : StepFromHereCallback :=
  fun current_plan flags _ _ => (none, current_plan, flags)

/-- The line range lies inside the extent of the symbol and is shorter than it: the
extent of the symbol strictly exceeds the range. -/
def AddressRange.StrictlyInside (range extent : AddressRange) : Prop :=
  extent.m_base_addr.m_offset ≤ range.m_base_addr.m_offset ∧
    range.m_base_addr.m_offset + range.m_byte_size ≤
      extent.m_base_addr.m_offset + extent.m_byte_size ∧
    range.m_byte_size < extent.m_byte_size

instance (range extent : AddressRange) : Decidable (range.StrictlyInside extent) := by
  unfold AddressRange.StrictlyInside
  infer_instance

/-- The value the local `just_step_out` of `DefaultStepFromHereCallback` has once the
line-zero branch has looked at the symbol: a runtime thunk, or a symbol whose value is an
address and whose first and last byte both lie in the line range. -/
def justStepOut (env : Collaborators) (process_sp : Process) (sc : SymbolContext) : Bool :=
  match sc.symbol with
  | some symbol =>
    env.IsSymbolAnyRuntimeThunk process_sp symbol ||
      (symbol.ValueIsAddress &&
        (sc.line_entry.range.ContainsFileAddress symbol.GetAddress &&
          sc.line_entry.range.ContainsFileAddress
            (symbol.GetAddress.Slide (addr_sub symbol.GetByteSize 1))))
  | none => false

/-- A decision object with both default policies in its slots, as the constructor
`ThreadPlanShouldStopHere(ThreadPlan *owner)` leaves them, with the baton and the flags
the owning plan has set since. -/
def ThreadPlanShouldStopHere.withDefaults (env : Collaborators) (baton : Baton)
    (owner : ThreadPlan) (flags : Flags) : ThreadPlanShouldStopHere :=
  { m_callbacks :=
      { should_stop_here_callback := some (DefaultShouldStopHereSlot env)
        step_from_here_callback := some (DefaultStepFromHereSlot env) }
    m_baton := baton
    m_owner := owner
    m_flags := flags }

end lldb_private

/-! ## The default should-stop policy -/

namespace lldb_private

/-- The value the default should-stop policy computes when frame 0 exists, as one
Boolean expression over the three rules. -/
theorem DefaultShouldStopHereCallback_of_frame (env : Collaborators)
    (current_plan : ThreadPlan) (flags : Flags) (operation : FrameComparison)
    (baton : Baton) (frame : StackFrame)
    (hframe : current_plan.GetThread.GetStackFrameAtIndex 0 = some frame) :
    DefaultShouldStopHereCallback env current_plan flags operation baton =
      (!(((operation == .eFrameCompareOlder && flags.Test eStepOutAvoidNoDebug) ||
            (operation == .eFrameCompareYounger && flags.Test eStepInAvoidNoDebug) ||
            (operation == .eFrameCompareSameParent && flags.Test eStepInAvoidNoDebug)) &&
          !frame.HasDebugInformation) &&
        !(operation == .eFrameCompareOlder &&
          (match (frame.GetSymbolContext env).symbol with
            | some symbol =>
              env.IsSymbolAnyRuntimeThunk current_plan.GetThread.GetProcess symbol
            | none => false)) &&
        !((frame.GetSymbolContext env).line_entry.line == 0)) := by
  unfold DefaultShouldStopHereCallback
  rw [hframe]
  dsimp only
  generalize frame.GetSymbolContext env = sc
  generalize frame.HasDebugInformation = dbg
  generalize flags.Test eStepOutAvoidNoDebug = avoid_out
  generalize flags.Test eStepInAvoidNoDebug = avoid_in
  generalize current_plan.GetThread.GetProcess = process_sp
  obtain ⟨symbol, line_entry⟩ := sc
  cases symbol with
  | none =>
    cases operation <;> cases dbg <;> cases avoid_out <;> cases avoid_in <;>
      by_cases hl : line_entry.line = 0 <;> simp +decide [hl]
  | some symbol =>
    cases hthunk : env.IsSymbolAnyRuntimeThunk process_sp symbol <;>
      cases operation <;> cases dbg <;> cases avoid_out <;> cases avoid_in <;>
      by_cases hl : line_entry.line = 0 <;> simp +decide [hl, hthunk]

/-- C1: when frame 0 exists and its line entry reports line number zero, the default
should-stop policy answers false (do not stop), whatever the flags, the comparison, the
debug-info answer and the thunk classifier say. -/
theorem C1_line_zero_never_stops (env : Collaborators) (current_plan : ThreadPlan)
    (flags : Flags) (operation : FrameComparison) (baton : Baton) (frame : StackFrame)
    (hframe : current_plan.GetThread.GetStackFrameAtIndex 0 = some frame)
    (hline : (frame.GetSymbolContext env).line_entry.line = 0) :
    DefaultShouldStopHereCallback env current_plan flags operation baton = false := by
  rw [DefaultShouldStopHereCallback_of_frame env current_plan flags operation baton frame
    hframe]
  simp [hline]

/-- The sample for C1: a line-zero frame with debug information and a symbol that is no
thunk answers false even with no flag set. -/
theorem C1_line_zero_never_stops_witness :
    (ThreadPlan.mk .eKindStepOut
        (sampleThread ⟨true, some sampleSymbol, some ⟨0, ⟨⟨4096⟩, 16⟩⟩⟩)).GetThread.GetStackFrameAtIndex 0
      = some ⟨true, some sampleSymbol, some ⟨0, ⟨⟨4096⟩, 16⟩⟩⟩ ∧
    ((StackFrame.mk true (some sampleSymbol) (some ⟨0, ⟨⟨4096⟩, 16⟩⟩)).GetSymbolContext
        sampleEnv).line_entry.line = 0 ∧
    DefaultShouldStopHereCallback sampleEnv
        (ThreadPlan.mk .eKindStepOut
          (sampleThread ⟨true, some sampleSymbol, some ⟨0, ⟨⟨4096⟩, 16⟩⟩⟩))
        ⟨eNone⟩ .eFrameCompareYounger 0 = false :=
  ⟨rfl, rfl, C1_line_zero_never_stops sampleEnv _ ⟨eNone⟩ .eFrameCompareYounger 0 _ rfl rfl⟩

/-- C2: when frame 0 exists, the default should-stop policy answers true (stop) exactly
when none of the three rules applies: (1) the avoid-no-debug flag of the comparison is
set (`eStepOutAvoidNoDebug` for Older, `eStepInAvoidNoDebug` for Younger or SameParent)
and the frame lacks debug information; (2) the comparison is Older and the symbol of the
frame is classified as a runtime thunk; (3) the line entry has line number zero. In
particular it answers true for Older with `eStepOutAvoidNoDebug` unset, debug information
present, a symbol that is no thunk and a nonzero line. -/
theorem C2_stop_iff_no_rule_applies (env : Collaborators) (current_plan : ThreadPlan)
    (flags : Flags) (operation : FrameComparison) (baton : Baton) (frame : StackFrame)
    (hframe : current_plan.GetThread.GetStackFrameAtIndex 0 = some frame) :
    (DefaultShouldStopHereCallback env current_plan flags operation baton = true ↔
      ¬ (((operation = .eFrameCompareOlder ∧ flags.Test eStepOutAvoidNoDebug = true) ∨
            ((operation = .eFrameCompareYounger ∨ operation = .eFrameCompareSameParent) ∧
              flags.Test eStepInAvoidNoDebug = true)) ∧
          frame.HasDebugInformation = false) ∧
      ¬ (operation = .eFrameCompareOlder ∧
          ∃ symbol, (frame.GetSymbolContext env).symbol = some symbol ∧
            env.IsSymbolAnyRuntimeThunk current_plan.GetThread.GetProcess symbol = true) ∧
      ¬ ((frame.GetSymbolContext env).line_entry.line = 0)) ∧
    (operation = .eFrameCompareOlder → flags.Test eStepOutAvoidNoDebug = false →
      frame.HasDebugInformation = true →
      (∀ symbol, (frame.GetSymbolContext env).symbol = some symbol →
        env.IsSymbolAnyRuntimeThunk current_plan.GetThread.GetProcess symbol = false) →
      (frame.GetSymbolContext env).line_entry.line ≠ 0 →
      DefaultShouldStopHereCallback env current_plan flags operation baton = true) := by
  rw [DefaultShouldStopHereCallback_of_frame env current_plan flags operation baton frame
    hframe]
  generalize frame.GetSymbolContext env = sc
  generalize frame.HasDebugInformation = dbg
  generalize flags.Test eStepOutAvoidNoDebug = avoid_out
  generalize flags.Test eStepInAvoidNoDebug = avoid_in
  generalize current_plan.GetThread.GetProcess = process_sp
  obtain ⟨symbol, line_entry⟩ := sc
  constructor
  · cases symbol with
    | none =>
      cases operation <;> cases dbg <;> cases avoid_out <;> cases avoid_in <;>
        by_cases hl : line_entry.line = 0 <;> simp [hl, beq_eq_decide]
    | some symbol =>
      cases hthunk : env.IsSymbolAnyRuntimeThunk process_sp symbol <;>
        cases operation <;> cases dbg <;> cases avoid_out <;> cases avoid_in <;>
        by_cases hl : line_entry.line = 0 <;> simp [hl, hthunk, beq_eq_decide]
  · intro hop hout hdbg hthunk hl
    subst hop hout hdbg
    cases symbol with
    | none => simpa using hl
    | some symbol =>
      have h := hthunk symbol rfl
      simp only at h
      simp [h, hl]

/-- The sample for C2: an Older frame with debug information, a symbol that is no thunk
and line 7 makes the policy answer true; no rule applies. -/
theorem C2_stop_iff_no_rule_applies_witness :
    (ThreadPlan.mk .eKindStepOut
        (sampleThread ⟨true, some sampleSymbol, some ⟨7, ⟨⟨4096⟩, 16⟩⟩⟩)).GetThread.GetStackFrameAtIndex 0
      = some ⟨true, some sampleSymbol, some ⟨7, ⟨⟨4096⟩, 16⟩⟩⟩ ∧
    DefaultShouldStopHereCallback sampleEnv
        (ThreadPlan.mk .eKindStepOut
          (sampleThread ⟨true, some sampleSymbol, some ⟨7, ⟨⟨4096⟩, 16⟩⟩⟩))
        ⟨eNone⟩ .eFrameCompareOlder 0 = true :=
  ⟨rfl, (C2_stop_iff_no_rule_applies sampleEnv
      (ThreadPlan.mk .eKindStepOut
        (sampleThread ⟨true, some sampleSymbol, some ⟨7, ⟨⟨4096⟩, 16⟩⟩⟩))
      ⟨eNone⟩ .eFrameCompareOlder 0 ⟨true, some sampleSymbol, some ⟨7, ⟨⟨4096⟩, 16⟩⟩⟩ rfl).2
    rfl rfl rfl (by intro symbol h; cases h; rfl) (by decide)⟩

/-- Dispatch stops short when the should-stop slot holds the default policy and the
owner has no frame 0: it returns no plan and leaves the object as it was, whichever
step-from-here policy is installed. -/
theorem CheckShouldStopHereAndQueueStepOut_of_no_frame (env : Collaborators)
    (self : ThreadPlanShouldStopHere) (operation : FrameComparison)
    (hslot : self.m_callbacks.should_stop_here_callback = some (DefaultShouldStopHereSlot env))
    (hframe : self.m_owner.GetThread.GetStackFrameAtIndex 0 = none) :
    self.CheckShouldStopHereAndQueueStepOut operation = (none, self) := by
  unfold ThreadPlanShouldStopHere.CheckShouldStopHereAndQueueStepOut
    ThreadPlanShouldStopHere.InvokeShouldStopHereCallback
  rw [hslot]
  simp [DefaultShouldStopHereSlot, DefaultShouldStopHereCallback, hframe]

/-- C3: if no stack frame is available at index 0, the default should-stop policy
answers true (stop) for every flag setting and comparison, and Dispatch
(`CheckShouldStopHereAndQueueStepOut`) with the default strategy returns no plan and
leaves the object, the thread and its plan stack untouched. The same holds with any
other step-from-here policy in the slot, whatever that policy would answer or write:
the step-from-here policy is not invoked. -/
theorem C3_no_frame_stops_and_dispatch_idle (env : Collaborators) (owner : ThreadPlan)
    (operation : FrameComparison)
    (hframe : owner.GetThread.GetStackFrameAtIndex 0 = none) :
    (∀ (flags : Flags) (comparison : FrameComparison) (baton : Baton),
      DefaultShouldStopHereCallback env owner flags comparison baton = true) ∧
    (ThreadPlanShouldStopHere.new env owner).CheckShouldStopHereAndQueueStepOut operation =
      (none, ThreadPlanShouldStopHere.new env owner) ∧
    ((ThreadPlanShouldStopHere.new env
        owner).CheckShouldStopHereAndQueueStepOut operation).2.m_owner.GetThread.m_plan_stack =
      owner.GetThread.m_plan_stack ∧
    (∀ (step_from_here : Option StepFromHereCallback) (flags : Flags) (baton : Baton),
      (ThreadPlanShouldStopHere.mk ⟨some (DefaultShouldStopHereSlot env), step_from_here⟩
          baton owner flags).CheckShouldStopHereAndQueueStepOut operation =
        (none, ThreadPlanShouldStopHere.mk
          ⟨some (DefaultShouldStopHereSlot env), step_from_here⟩ baton owner flags)) := by
  refine ⟨?_, ?_, ?_, ?_⟩
  · intro flags comparison baton
    simp [DefaultShouldStopHereCallback, hframe]
  · exact CheckShouldStopHereAndQueueStepOut_of_no_frame env _ operation rfl hframe
  · rw [CheckShouldStopHereAndQueueStepOut_of_no_frame env _ operation rfl hframe]
    rfl
  · intro step_from_here flags baton
    exact CheckShouldStopHereAndQueueStepOut_of_no_frame env _ operation rfl hframe

/-- The sample for C3: an owner whose thread has no frame at all. -/
theorem C3_no_frame_stops_and_dispatch_idle_witness :
    (ThreadPlan.mk .eKindStepInRange sampleThreadNoFrame).GetThread.GetStackFrameAtIndex 0
      = none ∧
    ((ThreadPlanShouldStopHere.new sampleEnv
        (ThreadPlan.mk .eKindStepInRange
          sampleThreadNoFrame)).CheckShouldStopHereAndQueueStepOut .eFrameCompareYounger).1
      = none :=
  ⟨rfl, congrArg Prod.fst (C3_no_frame_stops_and_dispatch_idle sampleEnv
    (ThreadPlan.mk .eKindStepInRange sampleThreadNoFrame) .eFrameCompareYounger rfl).2.1⟩

/-- C4: for comparison Older, when the symbol of frame 0 is classified as a runtime
thunk, the default should-stop policy answers false, also when the frame has debug
information, its line number is nonzero and no avoid-no-debug flag is set. -/
theorem C4_older_thunk_never_stops (env : Collaborators) (current_plan : ThreadPlan)
    (flags : Flags) (baton : Baton) (frame : StackFrame) (symbol : Symbol)
    (hframe : current_plan.GetThread.GetStackFrameAtIndex 0 = some frame)
    (hsymbol : (frame.GetSymbolContext env).symbol = some symbol)
    (hthunk : env.IsSymbolAnyRuntimeThunk current_plan.GetThread.GetProcess symbol = true) :
    DefaultShouldStopHereCallback env current_plan flags .eFrameCompareOlder baton = false := by
  rw [DefaultShouldStopHereCallback_of_frame env current_plan flags .eFrameCompareOlder baton
    frame hframe, hsymbol]
  simp [hthunk]

/-- The sample for C4: a thunk frame with debug information, line 7 and no flag set. -/
theorem C4_older_thunk_never_stops_witness :
    (ThreadPlan.mk .eKindStepOut
        (sampleThread ⟨true, some sampleThunk, some ⟨7, ⟨⟨4096⟩, 16⟩⟩⟩)).GetThread.GetStackFrameAtIndex 0
      = some ⟨true, some sampleThunk, some ⟨7, ⟨⟨4096⟩, 16⟩⟩⟩ ∧
    ((StackFrame.mk true (some sampleThunk) (some ⟨7, ⟨⟨4096⟩, 16⟩⟩)).GetSymbolContext
        sampleEnv).symbol = some sampleThunk ∧
    sampleEnv.IsSymbolAnyRuntimeThunk ⟨1⟩ sampleThunk = true ∧
    DefaultShouldStopHereCallback sampleEnv
        (ThreadPlan.mk .eKindStepOut
          (sampleThread ⟨true, some sampleThunk, some ⟨7, ⟨⟨4096⟩, 16⟩⟩⟩))
        ⟨eNone⟩ .eFrameCompareOlder 0 = false :=
  ⟨rfl, rfl, rfl, C4_older_thunk_never_stops sampleEnv
    (ThreadPlan.mk .eKindStepOut
      (sampleThread ⟨true, some sampleThunk, some ⟨7, ⟨⟨4096⟩, 16⟩⟩⟩))
    ⟨eNone⟩ 0 ⟨true, some sampleThunk, some ⟨7, ⟨⟨4096⟩, 16⟩⟩⟩ sampleThunk rfl rfl rfl⟩

/-! ## Dispatch -/

/-- Dispatch, unfolded: it returns no plan when the should-stop evaluation answers
"stop", and otherwise what `QueueStepOutFromHerePlan` returns. -/
theorem CheckShouldStopHereAndQueueStepOut_eq (self : ThreadPlanShouldStopHere)
    (operation : FrameComparison) :
    (self.CheckShouldStopHereAndQueueStepOut operation).1 =
      if (self.InvokeShouldStopHereCallback operation).1 then none
      else ((self.InvokeShouldStopHereCallback operation).2.QueueStepOutFromHerePlan
        (self.InvokeShouldStopHereCallback operation).2.m_flags operation).1 := by
  unfold ThreadPlanShouldStopHere.CheckShouldStopHereAndQueueStepOut
  cases h : (self.InvokeShouldStopHereCallback operation).1 <;> simp [h]

/-- The request the default step-from-here policy answers with when frame 0 exists: a
range-bound plan over the line range when the line number is zero and `just_step_out`
stayed false (step-in-range for a step-in plan, step-over-range otherwise), and the
step-out request in every other case. -/
theorem DefaultStepFromHereCallback_of_frame (env : Collaborators)
    (current_plan : ThreadPlan) (flags : Flags) (operation : FrameComparison)
    (baton : Baton) (frame : StackFrame)
    (hframe : current_plan.GetThread.GetStackFrameAtIndex 0 = some frame) :
    (DefaultStepFromHereCallback env current_plan flags operation baton).1 =
      some (if (frame.GetSymbolContext env).line_entry.line = 0 ∧
            justStepOut env current_plan.GetThread.GetProcess (frame.GetSymbolContext env)
              = false then
          if current_plan.GetKind = .eKindStepInRange then
            .StepInRangeNoShouldStop false (frame.GetSymbolContext env).line_entry.range
              (frame.GetSymbolContext env) none .eOnlyDuringStepping .eLazyBoolCalculate
              .eLazyBoolNo
          else
            .StepOverRange false (frame.GetSymbolContext env).line_entry.range
              (frame.GetSymbolContext env) .eOnlyDuringStepping .eLazyBoolNo
        else stepOutRequest) := by
  unfold DefaultStepFromHereCallback justStepOut
  rw [hframe]
  simp only [Thread.QueueThreadPlanForStepInRangeNoShouldStop,
    Thread.QueueThreadPlanForStepOverRange, Thread.QueueThreadPlanForStepOutNoShouldStop,
    stepOutRequest]
  generalize frame.GetSymbolContext env = sc
  generalize current_plan.GetThread.GetProcess = process_sp
  obtain ⟨symbol, line_entry⟩ := sc
  by_cases hl : line_entry.line = 0
  · by_cases hk : current_plan.GetKind = .eKindStepInRange
    · cases symbol with
      | none => simp [hl, hk]
      | some symbol =>
        cases hthunk : env.IsSymbolAnyRuntimeThunk process_sp symbol <;>
          cases haddr : symbol.ValueIsAddress <;>
          cases hfirst : line_entry.range.ContainsFileAddress symbol.GetAddress <;>
          cases hlast : line_entry.range.ContainsFileAddress
            (symbol.GetAddress.Slide (addr_sub symbol.GetByteSize 1)) <;>
          simp [hl, hk, hthunk, haddr, hfirst, hlast]
    · cases symbol with
      | none => simp [hl, hk]
      | some symbol =>
        cases hthunk : env.IsSymbolAnyRuntimeThunk process_sp symbol <;>
          cases haddr : symbol.ValueIsAddress <;>
          cases hfirst : line_entry.range.ContainsFileAddress symbol.GetAddress <;>
          cases hlast : line_entry.range.ContainsFileAddress
            (symbol.GetAddress.Slide (addr_sub symbol.GetByteSize 1)) <;>
          simp [hl, hk, hthunk, haddr, hfirst, hlast]
  · simp [hl]

/-- The default step-from-here policy answers with a plan whenever frame 0 exists. -/
theorem DefaultStepFromHereCallback_isSome (env : Collaborators) (current_plan : ThreadPlan)
    (flags : Flags) (operation : FrameComparison) (baton : Baton) (frame : StackFrame)
    (hframe : current_plan.GetThread.GetStackFrameAtIndex 0 = some frame) :
    (DefaultStepFromHereCallback env current_plan flags operation baton).1.isSome = true := by
  rw [DefaultStepFromHereCallback_of_frame env current_plan flags operation baton frame
    hframe]
  rfl

/-- The default step-from-here policy answers with no plan when frame 0 is missing, and
leaves the plan with its thread as it was. -/
theorem DefaultStepFromHereCallback_of_no_frame (env : Collaborators)
    (current_plan : ThreadPlan) (flags : Flags) (operation : FrameComparison)
    (baton : Baton) (hframe : current_plan.GetThread.GetStackFrameAtIndex 0 = none) :
    DefaultStepFromHereCallback env current_plan flags operation baton =
      (none, current_plan) := by
  unfold DefaultStepFromHereCallback
  rw [hframe]

/-- C5, refuted as stated: with a should-stop policy that answers "do not stop", Dispatch
returns no plan when the step-from-here slot is empty, and no plan either when the
installed step-from-here policy produces no request. Dispatch builds no step-out plan of
its own. -/
theorem C5_dispatch_builds_no_plan_itself :
    ((ThreadPlanShouldStopHere.mk ⟨some neverStopPolicy, none⟩ 0
          (ThreadPlan.mk .eKindStepOut
            (sampleThread ⟨true, some sampleSymbol, some ⟨7, ⟨⟨4096⟩, 16⟩⟩⟩))
          ⟨eNone⟩).InvokeShouldStopHereCallback .eFrameCompareOlder).1 = false ∧
    ((ThreadPlanShouldStopHere.mk ⟨some neverStopPolicy, none⟩ 0
          (ThreadPlan.mk .eKindStepOut
            (sampleThread ⟨true, some sampleSymbol, some ⟨7, ⟨⟨4096⟩, 16⟩⟩⟩))
          ⟨eNone⟩).CheckShouldStopHereAndQueueStepOut .eFrameCompareOlder).1 = none ∧
    ((ThreadPlanShouldStopHere.mk ⟨some neverStopPolicy, some noRequestPolicy⟩ 0
          (ThreadPlan.mk .eKindStepOut
            (sampleThread ⟨true, some sampleSymbol, some ⟨7, ⟨⟨4096⟩, 16⟩⟩⟩))
          ⟨eNone⟩).InvokeShouldStopHereCallback .eFrameCompareOlder).1 = false ∧
    ((ThreadPlanShouldStopHere.mk ⟨some neverStopPolicy, some noRequestPolicy⟩ 0
          (ThreadPlan.mk .eKindStepOut
            (sampleThread ⟨true, some sampleSymbol, some ⟨7, ⟨⟨4096⟩, 16⟩⟩⟩))
          ⟨eNone⟩).CheckShouldStopHereAndQueueStepOut .eFrameCompareOlder).1 = none :=
  ⟨rfl, rfl, rfl, rfl⟩

/-- C5, amended: for every decision strategy and every state, Dispatch returns no plan
when the should-stop evaluation answers "stop" (an empty should-stop slot counts as
"stop"). When the answer is "do not stop", Dispatch returns what the installed
step-from-here policy returns, and no plan when that slot is empty: it builds no plan of
its own. The unconditional step-out fallback belongs to the default step-from-here
policy: with that policy in the slot and frame 0 present, a "do not stop" answer always
yields a plan. -/
theorem C5_dispatch_returns_policy_answer (env : Collaborators)
    (self : ThreadPlanShouldStopHere) (operation : FrameComparison) :
    ((self.InvokeShouldStopHereCallback operation).1 = true →
      self.CheckShouldStopHereAndQueueStepOut operation =
        (none, (self.InvokeShouldStopHereCallback operation).2)) ∧
    (self.m_callbacks.should_stop_here_callback = none →
      self.CheckShouldStopHereAndQueueStepOut operation = (none, self)) ∧
    ((self.InvokeShouldStopHereCallback operation).1 = false →
      self.m_callbacks.step_from_here_callback = none →
      (self.CheckShouldStopHereAndQueueStepOut operation).1 = none) ∧
    (∀ policy : StepFromHereCallback,
      (self.InvokeShouldStopHereCallback operation).1 = false →
      self.m_callbacks.step_from_here_callback = some policy →
      (self.CheckShouldStopHereAndQueueStepOut operation).1 =
        (policy (self.InvokeShouldStopHereCallback operation).2.m_owner
          (self.InvokeShouldStopHereCallback operation).2.m_flags operation self.m_baton).1) ∧
    (∀ frame : StackFrame,
      (self.InvokeShouldStopHereCallback operation).1 = false →
      self.m_callbacks.step_from_here_callback = some (DefaultStepFromHereSlot env) →
      (self.InvokeShouldStopHereCallback operation).2.m_owner.GetThread.GetStackFrameAtIndex 0
        = some frame →
      (self.CheckShouldStopHereAndQueueStepOut operation).1.isSome = true) := by
  have hcb : (self.InvokeShouldStopHereCallback operation).2.m_callbacks = self.m_callbacks := by
    unfold ThreadPlanShouldStopHere.InvokeShouldStopHereCallback
    cases self.m_callbacks.should_stop_here_callback <;> rfl
  have hbaton : (self.InvokeShouldStopHereCallback operation).2.m_baton = self.m_baton := by
    unfold ThreadPlanShouldStopHere.InvokeShouldStopHereCallback
    cases self.m_callbacks.should_stop_here_callback <;> rfl
  have hpolicy : ∀ policy : StepFromHereCallback,
      (self.InvokeShouldStopHereCallback operation).1 = false →
      self.m_callbacks.step_from_here_callback = some policy →
      (self.CheckShouldStopHereAndQueueStepOut operation).1 =
        (policy (self.InvokeShouldStopHereCallback operation).2.m_owner
          (self.InvokeShouldStopHereCallback operation).2.m_flags operation self.m_baton).1 := by
    intro policy hstop hslot
    rw [CheckShouldStopHereAndQueueStepOut_eq, hstop]
    unfold ThreadPlanShouldStopHere.QueueStepOutFromHerePlan
    rw [hcb, hslot, hbaton]
    rfl
  refine ⟨?_, ?_, ?_, hpolicy, ?_⟩
  · intro hstop
    unfold ThreadPlanShouldStopHere.CheckShouldStopHereAndQueueStepOut
    simp [hstop]
  · intro hslot
    unfold ThreadPlanShouldStopHere.CheckShouldStopHereAndQueueStepOut
      ThreadPlanShouldStopHere.InvokeShouldStopHereCallback
    rw [hslot]
    rfl
  · intro hstop hslot
    rw [CheckShouldStopHereAndQueueStepOut_eq, hstop]
    unfold ThreadPlanShouldStopHere.QueueStepOutFromHerePlan
    rw [hcb, hslot]
    rfl
  · intro frame hstop hslot hframe
    rw [hpolicy _ hstop hslot]
    have h := DefaultStepFromHereCallback_isSome env
      (self.InvokeShouldStopHereCallback operation).2.m_owner
      (self.InvokeShouldStopHereCallback operation).2.m_flags operation self.m_baton frame
      hframe
    simpa [DefaultStepFromHereSlot] using h

/-- The sample for C5 as amended: with the default strategy on a line-zero frame the
answer is "do not stop" and Dispatch returns a plan. -/
theorem C5_dispatch_returns_policy_answer_witness :
    ((ThreadPlanShouldStopHere.new sampleEnv
        (ThreadPlan.mk .eKindStepOut
          (sampleThread ⟨true, some sampleSymbol,
            some ⟨0, ⟨⟨4096⟩, 16⟩⟩⟩))).InvokeShouldStopHereCallback .eFrameCompareOlder).1
      = false ∧
    ((ThreadPlanShouldStopHere.new sampleEnv
        (ThreadPlan.mk .eKindStepOut
          (sampleThread ⟨true, some sampleSymbol,
            some ⟨0, ⟨⟨4096⟩, 16⟩⟩⟩))).CheckShouldStopHereAndQueueStepOut
        .eFrameCompareOlder).1.isSome = true :=
  ⟨rfl, (C5_dispatch_returns_policy_answer sampleEnv
    (ThreadPlanShouldStopHere.new sampleEnv
      (ThreadPlan.mk .eKindStepOut
        (sampleThread ⟨true, some sampleSymbol, some ⟨0, ⟨⟨4096⟩, 16⟩⟩⟩)))
    .eFrameCompareOlder).2.2.2.2 ⟨true, some sampleSymbol, some ⟨0, ⟨⟨4096⟩, 16⟩⟩⟩
    rfl rfl rfl⟩

/-! ## The default step-from-here policy -/

/-- The modulus of 64-bit arithmetic, as a numeral. -/
theorem ADDR_MODULUS_eq : ADDR_MODULUS = 18446744073709551616 := by
  norm_num [ADDR_MODULUS]

/-- The address of the last byte of a symbol, as the policy computes it, when the symbol
has at least one byte. -/
theorem symbol_end_offset (symbol : Symbol) (hpos : 0 < symbol.GetByteSize) :
    (symbol.GetAddress.Slide (addr_sub symbol.GetByteSize 1)).m_offset =
      (symbol.GetAddress.m_offset + symbol.GetByteSize - 1) % ADDR_MODULUS := by
  unfold Address.Slide addr_sub
  rw [ADDR_MODULUS_eq]
  show (_ + _) % _ = _
  omega

/-- A line range that the extent of the symbol strictly exceeds does not hold both the
first and the last byte of the symbol. -/
theorem whole_function_check_of_strictlyInside (range : AddressRange) (symbol : Symbol)
    (haddr : symbol.GetAddress.m_offset < ADDR_MODULUS)
    (hsize : symbol.GetByteSize < ADDR_MODULUS)
    (hinside : range.StrictlyInside symbol.m_addr_range) :
    (range.ContainsFileAddress symbol.GetAddress &&
      range.ContainsFileAddress (symbol.GetAddress.Slide (addr_sub symbol.GetByteSize 1)))
      = false := by
  obtain ⟨hbase, hend, hlt⟩ := hinside
  have hpos : 0 < symbol.GetByteSize := by
    unfold Symbol.GetByteSize
    omega
  rw [Bool.and_eq_false_iff]
  by_contra hcon
  push_neg at hcon
  obtain ⟨hfirst, hlast⟩ := hcon
  simp only [ne_eq, Bool.not_eq_false] at hfirst hlast
  unfold AddressRange.ContainsFileAddress at hfirst hlast
  rw [symbol_end_offset symbol hpos] at hlast
  simp only [Bool.and_eq_true, decide_eq_true_eq] at hfirst hlast
  rw [ADDR_MODULUS_eq] at haddr hsize hlast
  unfold Symbol.GetAddress Symbol.GetByteSize at *
  omega

/-- A line range equal to the extent of a symbol with at least one byte, not running
past the end of the address space, holds the first and the last byte of the symbol. -/
theorem whole_function_check_of_eq (range : AddressRange) (symbol : Symbol)
    (heq : symbol.m_addr_range = range) (hpos : 0 < symbol.GetByteSize)
    (hfit : symbol.GetAddress.m_offset + symbol.GetByteSize ≤ ADDR_MODULUS) :
    (range.ContainsFileAddress symbol.GetAddress &&
      range.ContainsFileAddress (symbol.GetAddress.Slide (addr_sub symbol.GetByteSize 1)))
      = true := by
  subst heq
  unfold AddressRange.ContainsFileAddress
  rw [symbol_end_offset symbol hpos]
  simp only [Bool.and_eq_true, decide_eq_true_eq]
  rw [ADDR_MODULUS_eq] at hfit ⊢
  unfold Symbol.GetAddress Symbol.GetByteSize at *
  omega

/-- The local `just_step_out` stays false for a symbol that is no thunk and whose extent
strictly exceeds the line range. -/
theorem justStepOut_of_strictlyInside (env : Collaborators) (process_sp : Process)
    (sc : SymbolContext) (symbol : Symbol) (hsymbol : sc.symbol = some symbol)
    (hthunk : env.IsSymbolAnyRuntimeThunk process_sp symbol = false)
    (haddr : symbol.GetAddress.m_offset < ADDR_MODULUS)
    (hsize : symbol.GetByteSize < ADDR_MODULUS)
    (hinside : sc.line_entry.range.StrictlyInside symbol.m_addr_range) :
    justStepOut env process_sp sc = false := by
  unfold justStepOut
  rw [hsymbol]
  simp only [hthunk, Bool.false_or,
    whole_function_check_of_strictlyInside sc.line_entry.range symbol haddr hsize hinside,
    Bool.and_false]

/-- C6: when the line entry of frame 0 is line zero, the enclosing symbol is no runtime
thunk, the extent of the symbol strictly exceeds the line-zero range, and the requesting
plan is a step-in plan (`eKindStepInRange`), the default step-from-here policy answers
with a step-in-range request over exactly the range of the line entry, made through the
entry point that suppresses the should-stop checks; the request is neither a step-out
nor a step-over request. -/
theorem C6_step_in_range_over_line_range (env : Collaborators) (current_plan : ThreadPlan)
    (flags : Flags) (operation : FrameComparison) (baton : Baton) (frame : StackFrame)
    (symbol : Symbol)
    (hframe : current_plan.GetThread.GetStackFrameAtIndex 0 = some frame)
    (hline : (frame.GetSymbolContext env).line_entry.line = 0)
    (hsymbol : (frame.GetSymbolContext env).symbol = some symbol)
    (hthunk : env.IsSymbolAnyRuntimeThunk current_plan.GetThread.GetProcess symbol = false)
    (haddr : symbol.GetAddress.m_offset < ADDR_MODULUS)
    (hsize : symbol.GetByteSize < ADDR_MODULUS)
    (hinside : (frame.GetSymbolContext env).line_entry.range.StrictlyInside
      symbol.m_addr_range)
    (hkind : current_plan.GetKind = .eKindStepInRange) :
    (DefaultStepFromHereCallback env current_plan flags operation baton).1 =
      some (.StepInRangeNoShouldStop false (frame.GetSymbolContext env).line_entry.range
        (frame.GetSymbolContext env) none .eOnlyDuringStepping .eLazyBoolCalculate
        .eLazyBoolNo) ∧
    ∃ plan, (DefaultStepFromHereCallback env current_plan flags operation baton).1 = some plan ∧
      plan.GetKind = .eKindStepInRange ∧
      plan.GetRange = some (frame.GetSymbolContext env).line_entry.range ∧
      plan.NoShouldStop = true ∧
      plan.GetKind ≠ .eKindStepOut ∧ plan.GetKind ≠ .eKindStepOverRange := by
  have hjust := justStepOut_of_strictlyInside env current_plan.GetThread.GetProcess
    (frame.GetSymbolContext env) symbol hsymbol hthunk haddr hsize hinside
  have hres := DefaultStepFromHereCallback_of_frame env current_plan flags operation baton
    frame hframe
  rw [if_pos ⟨hline, hjust⟩, if_pos hkind] at hres
  refine ⟨hres, _, hres, rfl, rfl, rfl, ?_, ?_⟩ <;> simp [QueuedPlan.GetKind]

/-- The sample for C6: a step-in plan on a line-zero range of 16 bytes at the start of a
symbol of 64 bytes. -/
theorem C6_step_in_range_over_line_range_witness :
    (ThreadPlan.mk .eKindStepInRange
        (sampleThread ⟨true, some sampleSymbol, some ⟨0, ⟨⟨4096⟩, 16⟩⟩⟩)).GetThread.GetStackFrameAtIndex 0
      = some ⟨true, some sampleSymbol, some ⟨0, ⟨⟨4096⟩, 16⟩⟩⟩ ∧
    sampleEnv.IsSymbolAnyRuntimeThunk ⟨1⟩ sampleSymbol = false ∧
    AddressRange.StrictlyInside ⟨⟨4096⟩, 16⟩ sampleSymbol.m_addr_range ∧
    (DefaultStepFromHereCallback sampleEnv
        (ThreadPlan.mk .eKindStepInRange
          (sampleThread ⟨true, some sampleSymbol, some ⟨0, ⟨⟨4096⟩, 16⟩⟩⟩))
        ⟨eNone⟩ .eFrameCompareYounger 0).1 =
      some (.StepInRangeNoShouldStop false ⟨⟨4096⟩, 16⟩
        ⟨some sampleSymbol, ⟨0, ⟨⟨4096⟩, 16⟩⟩⟩ none .eOnlyDuringStepping .eLazyBoolCalculate
        .eLazyBoolNo) :=
  ⟨rfl, rfl, by decide,
    (C6_step_in_range_over_line_range sampleEnv
      (ThreadPlan.mk .eKindStepInRange
        (sampleThread ⟨true, some sampleSymbol, some ⟨0, ⟨⟨4096⟩, 16⟩⟩⟩))
      ⟨eNone⟩ .eFrameCompareYounger 0 ⟨true, some sampleSymbol, some ⟨0, ⟨⟨4096⟩, 16⟩⟩⟩
      sampleSymbol rfl rfl rfl rfl (by rw [ADDR_MODULUS_eq]; decide)
      (by rw [ADDR_MODULUS_eq]; decide) (by decide) rfl).1⟩

/-- In the setting of C6 with a requesting plan of any other kind, the policy answers
with a step-over-range request over exactly the range of the line entry. -/
theorem DefaultStepFromHereCallback_step_over_range (env : Collaborators)
    (current_plan : ThreadPlan) (flags : Flags) (operation : FrameComparison)
    (baton : Baton) (frame : StackFrame) (symbol : Symbol)
    (hframe : current_plan.GetThread.GetStackFrameAtIndex 0 = some frame)
    (hline : (frame.GetSymbolContext env).line_entry.line = 0)
    (hsymbol : (frame.GetSymbolContext env).symbol = some symbol)
    (hthunk : env.IsSymbolAnyRuntimeThunk current_plan.GetThread.GetProcess symbol = false)
    (haddr : symbol.GetAddress.m_offset < ADDR_MODULUS)
    (hsize : symbol.GetByteSize < ADDR_MODULUS)
    (hinside : (frame.GetSymbolContext env).line_entry.range.StrictlyInside
      symbol.m_addr_range)
    (hkind : current_plan.GetKind ≠ .eKindStepInRange) :
    (DefaultStepFromHereCallback env current_plan flags operation baton).1 =
      some (.StepOverRange false (frame.GetSymbolContext env).line_entry.range
        (frame.GetSymbolContext env) .eOnlyDuringStepping .eLazyBoolNo) := by
  have hjust := justStepOut_of_strictlyInside env current_plan.GetThread.GetProcess
    (frame.GetSymbolContext env) symbol hsymbol hthunk haddr hsize hinside
  have hres := DefaultStepFromHereCallback_of_frame env current_plan flags operation baton
    frame hframe
  rw [if_pos ⟨hline, hjust⟩, if_neg hkind] at hres
  exact hres

/-- C7, the code at the failing input: for a step-out plan on a line-zero range of 16
bytes at the start of a symbol of 64 bytes that is no thunk, the policy answers with a
step-over-range request over exactly that range, made through
`QueueThreadPlanForStepOverRange`: unlike the step-in-range and the step-out request,
it does not come from a `...NoShouldStop` entry point, so the should-stop checks of the
new plan are not suppressed. -/
theorem C7_step_over_range_keeps_should_stop :
    (DefaultStepFromHereCallback sampleEnv
        (ThreadPlan.mk .eKindStepOut
          (sampleThread ⟨true, some sampleSymbol, some ⟨0, ⟨⟨4096⟩, 16⟩⟩⟩))
        ⟨eNone⟩ .eFrameCompareOlder 0).1 =
      some (.StepOverRange false ⟨⟨4096⟩, 16⟩
        ⟨some sampleSymbol, ⟨0, ⟨⟨4096⟩, 16⟩⟩⟩ .eOnlyDuringStepping .eLazyBoolNo) ∧
    (QueuedPlan.StepOverRange false ⟨⟨4096⟩, 16⟩
        ⟨some sampleSymbol, ⟨0, ⟨⟨4096⟩, 16⟩⟩⟩ .eOnlyDuringStepping
        .eLazyBoolNo).NoShouldStop = false ∧
    (DefaultStepFromHereCallback sampleEnv
        (ThreadPlan.mk .eKindStepInRange
          (sampleThread ⟨true, some sampleSymbol, some ⟨0, ⟨⟨4096⟩, 16⟩⟩⟩))
        ⟨eNone⟩ .eFrameCompareOlder 0).1.map QueuedPlan.NoShouldStop = some true := by
  refine ⟨?_, rfl, ?_⟩ <;> decide

/-- C8, refuted as stated: with the extent of the symbol equal to the line-zero range,
the policy still answers with a range-bound request when the byte size is zero (the
empty range holds no address), and when the value of the symbol is not an address (the
whole-function check is skipped). -/
theorem C8_equal_range_still_range_bound :
    (Symbol.mk 2 ⟨⟨4096⟩, 0⟩ true).m_addr_range = (LineEntry.mk 0 ⟨⟨4096⟩, 0⟩).range ∧
    (DefaultStepFromHereCallback sampleEnv
        (ThreadPlan.mk .eKindStepInRange
          (sampleThread ⟨true, some ⟨2, ⟨⟨4096⟩, 0⟩, true⟩, some ⟨0, ⟨⟨4096⟩, 0⟩⟩⟩))
        ⟨eNone⟩ .eFrameCompareYounger 0).1 =
      some (.StepInRangeNoShouldStop false ⟨⟨4096⟩, 0⟩
        ⟨some ⟨2, ⟨⟨4096⟩, 0⟩, true⟩, ⟨0, ⟨⟨4096⟩, 0⟩⟩⟩ none .eOnlyDuringStepping
        .eLazyBoolCalculate .eLazyBoolNo) ∧
    (Symbol.mk 2 ⟨⟨4096⟩, 64⟩ false).m_addr_range = (LineEntry.mk 0 ⟨⟨4096⟩, 64⟩).range ∧
    (DefaultStepFromHereCallback sampleEnv
        (ThreadPlan.mk .eKindStepOut
          (sampleThread ⟨true, some ⟨2, ⟨⟨4096⟩, 64⟩, false⟩, some ⟨0, ⟨⟨4096⟩, 64⟩⟩⟩))
        ⟨eNone⟩ .eFrameCompareOlder 0).1 =
      some (.StepOverRange false ⟨⟨4096⟩, 64⟩
        ⟨some ⟨2, ⟨⟨4096⟩, 64⟩, false⟩, ⟨0, ⟨⟨4096⟩, 64⟩⟩⟩ .eOnlyDuringStepping
        .eLazyBoolNo) := by
  refine ⟨rfl, ?_, rfl, ?_⟩ <;> decide

/-- C8, amended: when the line entry of frame 0 is line zero and the extent of the
enclosing symbol equals the line-zero range (same start, same byte size), the default
step-from-here policy answers with the unconditional step-out request, never with a
range-bound one, whatever the kind of the requesting plan, provided the symbol is a
runtime thunk, or its value is an address, its byte size is not zero and its extent ends
within the 64-bit address space. -/
theorem C8_whole_function_steps_out (env : Collaborators) (current_plan : ThreadPlan)
    (flags : Flags) (operation : FrameComparison) (baton : Baton) (frame : StackFrame)
    (symbol : Symbol)
    (hframe : current_plan.GetThread.GetStackFrameAtIndex 0 = some frame)
    (_hline : (frame.GetSymbolContext env).line_entry.line = 0)
    (hsymbol : (frame.GetSymbolContext env).symbol = some symbol)
    (heq : symbol.m_addr_range = (frame.GetSymbolContext env).line_entry.range)
    (hcase : env.IsSymbolAnyRuntimeThunk current_plan.GetThread.GetProcess symbol = true ∨
      (symbol.ValueIsAddress = true ∧ 0 < symbol.GetByteSize ∧
        symbol.GetAddress.m_offset + symbol.GetByteSize ≤ ADDR_MODULUS)) :
    (DefaultStepFromHereCallback env current_plan flags operation baton).1 =
      some (.StepOutNoShouldStop false none true false .eVoteNo .eVoteNoOpinion 0 true) ∧
    ∀ plan, (DefaultStepFromHereCallback env current_plan flags operation baton).1 = some plan →
      plan.IsRangeBound = false := by
  have hjust : justStepOut env current_plan.GetThread.GetProcess (frame.GetSymbolContext env)
      = true := by
    unfold justStepOut
    rw [hsymbol]
    rcases hcase with hthunk | ⟨haddr, hpos, hfit⟩
    · simp [hthunk]
    · simp only [haddr, Bool.true_and,
        whole_function_check_of_eq (frame.GetSymbolContext env).line_entry.range symbol heq
          hpos hfit, Bool.or_true]
  have hres := DefaultStepFromHereCallback_of_frame env current_plan flags operation baton
    frame hframe
  rw [if_neg (by simp [hjust])] at hres
  refine ⟨hres, ?_⟩
  intro plan hplan
  rw [hres] at hplan
  cases hplan
  rfl

/-- The sample for C8 as amended: a symbol of 64 bytes whose whole extent is the
line-zero range. -/
theorem C8_whole_function_steps_out_witness :
    (ThreadPlan.mk .eKindStepInRange
        (sampleThread ⟨true, some sampleSymbol, some ⟨0, ⟨⟨4096⟩, 64⟩⟩⟩)).GetThread.GetStackFrameAtIndex 0
      = some ⟨true, some sampleSymbol, some ⟨0, ⟨⟨4096⟩, 64⟩⟩⟩ ∧
    sampleSymbol.m_addr_range = (LineEntry.mk 0 ⟨⟨4096⟩, 64⟩).range ∧
    sampleSymbol.ValueIsAddress = true ∧ 0 < sampleSymbol.GetByteSize ∧
    (DefaultStepFromHereCallback sampleEnv
        (ThreadPlan.mk .eKindStepInRange
          (sampleThread ⟨true, some sampleSymbol, some ⟨0, ⟨⟨4096⟩, 64⟩⟩⟩))
        ⟨eNone⟩ .eFrameCompareYounger 0).1 =
      some (.StepOutNoShouldStop false none true false .eVoteNo .eVoteNoOpinion 0 true) :=
  ⟨rfl, rfl, rfl, by decide,
    (C8_whole_function_steps_out sampleEnv
      (ThreadPlan.mk .eKindStepInRange
        (sampleThread ⟨true, some sampleSymbol, some ⟨0, ⟨⟨4096⟩, 64⟩⟩⟩))
      ⟨eNone⟩ .eFrameCompareYounger 0 ⟨true, some sampleSymbol, some ⟨0, ⟨⟨4096⟩, 64⟩⟩⟩
      sampleSymbol rfl rfl rfl rfl
      (Or.inr ⟨rfl, by decide, by rw [ADDR_MODULUS_eq]; decide⟩)).1⟩

/-- C9, refuted as stated: with frame 0 present, its symbol absent and a line entry of
line zero, the policy answers with a step-over-range request over the range of the line
entry, a range-bound replacement, not with the step-out plan. -/
theorem C9_absent_symbol_still_range_bound :
    (StackFrame.mk true none (some ⟨0, ⟨⟨4096⟩, 64⟩⟩)).m_symbol = none ∧
    (DefaultStepFromHereCallback sampleEnv
        (ThreadPlan.mk .eKindStepOut
          (sampleThread ⟨true, none, some ⟨0, ⟨⟨4096⟩, 64⟩⟩⟩))
        ⟨eNone⟩ .eFrameCompareOlder 0).1 =
      some (.StepOverRange false ⟨⟨4096⟩, 64⟩ ⟨none, ⟨0, ⟨⟨4096⟩, 64⟩⟩⟩
        .eOnlyDuringStepping .eLazyBoolNo) := by
  refine ⟨rfl, ?_⟩
  decide

/-- C9, amended: when frame 0 exists and the line number the policy reads is not zero,
the policy produces no range-bound replacement and the outcome is the unconditional
step-out plan, with or without a symbol; an absent line-table entry is such a case when
the default-constructed line entry has a nonzero line number. An absent symbol alone
does not lead to the step-out plan: with the symbol absent and line number zero the
policy requests a range-bound plan over the range of the line entry, step-in-range for a
step-in plan and step-over-range otherwise. -/
theorem C9_missing_information_outcome (env : Collaborators) (current_plan : ThreadPlan)
    (flags : Flags) (operation : FrameComparison) (baton : Baton) (frame : StackFrame)
    (hframe : current_plan.GetThread.GetStackFrameAtIndex 0 = some frame) :
    ((frame.GetSymbolContext env).line_entry.line ≠ 0 →
      (DefaultStepFromHereCallback env current_plan flags operation baton).1 =
        some (.StepOutNoShouldStop false none true false .eVoteNo .eVoteNoOpinion 0 true)) ∧
    (frame.m_line_entry = none → env.m_no_line_entry.line ≠ 0 →
      (DefaultStepFromHereCallback env current_plan flags operation baton).1 =
        some (.StepOutNoShouldStop false none true false .eVoteNo .eVoteNoOpinion 0 true)) ∧
    (frame.m_symbol = none → (frame.GetSymbolContext env).line_entry.line = 0 →
      (DefaultStepFromHereCallback env current_plan flags operation baton).1 =
        some (if current_plan.GetKind = .eKindStepInRange then
            .StepInRangeNoShouldStop false (frame.GetSymbolContext env).line_entry.range
              (frame.GetSymbolContext env) none .eOnlyDuringStepping .eLazyBoolCalculate
              .eLazyBoolNo
          else
            .StepOverRange false (frame.GetSymbolContext env).line_entry.range
              (frame.GetSymbolContext env) .eOnlyDuringStepping .eLazyBoolNo)) := by
  have hres := DefaultStepFromHereCallback_of_frame env current_plan flags operation baton
    frame hframe
  have hnonzero : (frame.GetSymbolContext env).line_entry.line ≠ 0 →
      (DefaultStepFromHereCallback env current_plan flags operation baton).1 =
        some (.StepOutNoShouldStop false none true false .eVoteNo .eVoteNoOpinion 0 true) := by
    intro hline
    rw [if_neg (fun h => hline h.1)] at hres
    exact hres
  refine ⟨hnonzero, ?_, ?_⟩
  · intro hentry hdefault
    apply hnonzero
    unfold StackFrame.GetSymbolContext
    rw [hentry]
    exact hdefault
  · intro hsymbol hline
    have hjust : justStepOut env current_plan.GetThread.GetProcess
        (frame.GetSymbolContext env) = false := by
      unfold justStepOut StackFrame.GetSymbolContext
      rw [hsymbol]
    rw [if_pos ⟨hline, hjust⟩] at hres
    exact hres

/-- The sample for C9 as amended: a frame with a symbol and line 7 ends in the step-out
plan. -/
theorem C9_missing_information_outcome_witness :
    (ThreadPlan.mk .eKindStepOut
        (sampleThread ⟨true, none, some ⟨7, ⟨⟨4096⟩, 64⟩⟩⟩)).GetThread.GetStackFrameAtIndex 0
      = some ⟨true, none, some ⟨7, ⟨⟨4096⟩, 64⟩⟩⟩ ∧
    ((StackFrame.mk true none (some ⟨7, ⟨⟨4096⟩, 64⟩⟩)).GetSymbolContext
        sampleEnv).line_entry.line ≠ 0 ∧
    (DefaultStepFromHereCallback sampleEnv
        (ThreadPlan.mk .eKindStepOut
          (sampleThread ⟨true, none, some ⟨7, ⟨⟨4096⟩, 64⟩⟩⟩))
        ⟨eNone⟩ .eFrameCompareOlder 0).1 =
      some (.StepOutNoShouldStop false none true false .eVoteNo .eVoteNoOpinion 0 true) :=
  ⟨rfl, by decide,
    (C9_missing_information_outcome sampleEnv
      (ThreadPlan.mk .eKindStepOut (sampleThread ⟨true, none, some ⟨7, ⟨⟨4096⟩, 64⟩⟩⟩))
      ⟨eNone⟩ .eFrameCompareOlder 0 ⟨true, none, some ⟨7, ⟨⟨4096⟩, 64⟩⟩⟩ rfl).1 (by decide)⟩

/-- C10: every step-out plan the default step-from-here policy requests carries the same
arguments, whatever the flags, the comparison and the frame state: it comes from the
entry point that suppresses the should-stop checks, does not stop the other threads,
starts at frame index 0, and has the no-opinion run vote (its stop vote is `eVoteNo`). -/
theorem C10_step_out_request_is_fixed (env : Collaborators) (current_plan : ThreadPlan)
    (flags : Flags) (operation : FrameComparison) (baton : Baton) (plan : QueuedPlan)
    (hplan : (DefaultStepFromHereCallback env current_plan flags operation baton).1 = some plan)
    (hkind : plan.GetKind = .eKindStepOut) :
    plan = .StepOutNoShouldStop false none true false .eVoteNo .eVoteNoOpinion 0 true ∧
    plan.NoShouldStop = true ∧
    (∀ abort_other_plans addr_context first_insn stop_other_threads stop_vote run_vote
        frame_idx continue_to_next_branch,
      plan = .StepOutNoShouldStop abort_other_plans addr_context first_insn
        stop_other_threads stop_vote run_vote frame_idx continue_to_next_branch →
      stop_other_threads = false ∧ frame_idx = 0 ∧ run_vote = .eVoteNoOpinion ∧
        stop_vote = .eVoteNo) := by
  have hfixed : plan =
      .StepOutNoShouldStop false none true false .eVoteNo .eVoteNoOpinion 0 true := by
    cases hframe : current_plan.GetThread.GetStackFrameAtIndex 0 with
    | none =>
      rw [DefaultStepFromHereCallback_of_no_frame env current_plan flags operation baton
        hframe] at hplan
      cases hplan
    | some frame =>
      rw [DefaultStepFromHereCallback_of_frame env current_plan flags operation baton frame
        hframe] at hplan
      injection hplan with hplan
      subst hplan
      split at hkind
      · split at hkind <;> simp [QueuedPlan.GetKind] at hkind
      · split
        · rename_i h1 h2
          exact absurd h2 h1
        · rfl
  subst hfixed
  refine ⟨rfl, rfl, ?_⟩
  intro a b c d e f g h heq
  injection heq with h1 h2 h3 h4 h5 h6 h7 h8
  exact ⟨h4.symm, h7.symm, h6.symm, h5.symm⟩

/-- The sample for C10: the step-out plan requested on a frame with line 7. -/
theorem C10_step_out_request_is_fixed_witness :
    (DefaultStepFromHereCallback sampleEnv
        (ThreadPlan.mk .eKindStepOverRange
          (sampleThread ⟨false, some sampleSymbol, some ⟨7, ⟨⟨4096⟩, 16⟩⟩⟩))
        ⟨eStepOutAvoidNoDebug⟩ .eFrameCompareOlder 0).1 = some stepOutRequest ∧
    stepOutRequest.GetKind = .eKindStepOut ∧
    stepOutRequest =
      .StepOutNoShouldStop false none true false .eVoteNo .eVoteNoOpinion 0 true :=
  ⟨by decide, rfl,
    (C10_step_out_request_is_fixed sampleEnv
      (ThreadPlan.mk .eKindStepOverRange
        (sampleThread ⟨false, some sampleSymbol, some ⟨7, ⟨⟨4096⟩, 16⟩⟩⟩))
      ⟨eStepOutAvoidNoDebug⟩ .eFrameCompareOlder 0 stepOutRequest (by decide) rfl).1⟩

/-! ## Dispatch twice on one landing state -/

/-- The default should-stop policy reads from the plan only frame 0 and the process. -/
theorem DefaultShouldStopHereCallback_congr (env : Collaborators)
    (current_plan other_plan : ThreadPlan) (flags : Flags) (operation : FrameComparison)
    (baton : Baton)
    (hframe : other_plan.GetThread.GetStackFrameAtIndex 0 =
      current_plan.GetThread.GetStackFrameAtIndex 0)
    (hprocess : other_plan.GetThread.GetProcess = current_plan.GetThread.GetProcess) :
    DefaultShouldStopHereCallback env other_plan flags operation baton =
      DefaultShouldStopHereCallback env current_plan flags operation baton := by
  cases h : current_plan.GetThread.GetStackFrameAtIndex 0 with
  | none =>
    rw [h] at hframe
    simp [DefaultShouldStopHereCallback, h, hframe]
  | some frame =>
    rw [h] at hframe
    rw [DefaultShouldStopHereCallback_of_frame env current_plan flags operation baton frame h,
      DefaultShouldStopHereCallback_of_frame env other_plan flags operation baton frame hframe,
      hprocess]

/-- The default step-from-here policy reads from the plan only its kind, frame 0 and
the process, as far as its answer goes. -/
theorem DefaultStepFromHereCallback_congr (env : Collaborators)
    (current_plan other_plan : ThreadPlan) (flags : Flags) (operation : FrameComparison)
    (baton : Baton)
    (hkind : other_plan.GetKind = current_plan.GetKind)
    (hframe : other_plan.GetThread.GetStackFrameAtIndex 0 =
      current_plan.GetThread.GetStackFrameAtIndex 0)
    (hprocess : other_plan.GetThread.GetProcess = current_plan.GetThread.GetProcess) :
    (DefaultStepFromHereCallback env other_plan flags operation baton).1 =
      (DefaultStepFromHereCallback env current_plan flags operation baton).1 := by
  cases h : current_plan.GetThread.GetStackFrameAtIndex 0 with
  | none =>
    rw [h] at hframe
    rw [DefaultStepFromHereCallback_of_no_frame env current_plan flags operation baton h,
      DefaultStepFromHereCallback_of_no_frame env other_plan flags operation baton hframe]
  | some frame =>
    rw [h] at hframe
    rw [DefaultStepFromHereCallback_of_frame env current_plan flags operation baton frame h,
      DefaultStepFromHereCallback_of_frame env other_plan flags operation baton frame hframe,
      hprocess, hkind]

/-- The plan the default step-from-here policy hands back is the plan it was given, with
the requested plan, if any, pushed on the plan stack of its thread. -/
theorem DefaultStepFromHereCallback_snd (env : Collaborators) (current_plan : ThreadPlan)
    (flags : Flags) (operation : FrameComparison) (baton : Baton) :
    (DefaultStepFromHereCallback env current_plan flags operation baton).2 =
      { current_plan with
        m_thread :=
          match (DefaultStepFromHereCallback env current_plan flags operation baton).1 with
          | some plan => current_plan.GetThread.QueueThreadPlan plan
          | none => current_plan.GetThread } := by
  unfold DefaultStepFromHereCallback
  cases h : current_plan.GetThread.GetStackFrameAtIndex 0 with
  | none => rfl
  | some frame =>
    simp only [Thread.QueueThreadPlanForStepInRangeNoShouldStop,
      Thread.QueueThreadPlanForStepOverRange, Thread.QueueThreadPlanForStepOutNoShouldStop]
    generalize frame.GetSymbolContext env = sc
    generalize current_plan.GetThread.GetProcess = process_sp
    obtain ⟨symbol, line_entry⟩ := sc
    by_cases hl : line_entry.line = 0
    · by_cases hk : current_plan.GetKind = .eKindStepInRange
      · cases symbol with
        | none => simp [hl, hk]
        | some symbol =>
          cases hthunk : env.IsSymbolAnyRuntimeThunk process_sp symbol <;>
            cases haddr : symbol.ValueIsAddress <;>
            cases hfirst : line_entry.range.ContainsFileAddress symbol.GetAddress <;>
            cases hlast : line_entry.range.ContainsFileAddress
              (symbol.GetAddress.Slide (addr_sub symbol.GetByteSize 1)) <;>
            simp [hl, hk, hthunk, haddr, hfirst, hlast]
      · cases symbol with
        | none => simp [hl, hk]
        | some symbol =>
          cases hthunk : env.IsSymbolAnyRuntimeThunk process_sp symbol <;>
            cases haddr : symbol.ValueIsAddress <;>
            cases hfirst : line_entry.range.ContainsFileAddress symbol.GetAddress <;>
            cases hlast : line_entry.range.ContainsFileAddress
              (symbol.GetAddress.Slide (addr_sub symbol.GetByteSize 1)) <;>
            simp [hl, hk, hthunk, haddr, hfirst, hlast]
    · simp [hl]

/-- The plan the default step-from-here policy hands back keeps its kind, and its thread
keeps its frames and its process: queueing only touches the plan stack. -/
theorem DefaultStepFromHereCallback_plan (env : Collaborators) (current_plan : ThreadPlan)
    (flags : Flags) (operation : FrameComparison) (baton : Baton) :
    (DefaultStepFromHereCallback env current_plan flags operation baton).2.GetKind =
      current_plan.GetKind ∧
    (DefaultStepFromHereCallback env current_plan flags operation
        baton).2.GetThread.GetStackFrameAtIndex 0 =
      current_plan.GetThread.GetStackFrameAtIndex 0 ∧
    (DefaultStepFromHereCallback env current_plan flags operation baton).2.GetThread.GetProcess =
      current_plan.GetThread.GetProcess := by
  rw [DefaultStepFromHereCallback_snd]
  cases (DefaultStepFromHereCallback env current_plan flags operation baton).1 <;>
    exact ⟨rfl, rfl, rfl⟩

/-- Dispatch with both default policies, unfolded: no plan and an untouched object when
the default should-stop policy answers "stop", and otherwise the answer of the default
step-from-here policy, with the plan it hands back as the new owner and the flags as
they were. -/
theorem CheckShouldStopHereAndQueueStepOut_withDefaults (env : Collaborators) (baton : Baton)
    (owner : ThreadPlan) (flags : Flags) (operation : FrameComparison) :
    (ThreadPlanShouldStopHere.withDefaults env baton owner
        flags).CheckShouldStopHereAndQueueStepOut operation =
      if DefaultShouldStopHereCallback env owner flags operation baton = true then
        (none, ThreadPlanShouldStopHere.withDefaults env baton owner flags)
      else
        ((DefaultStepFromHereCallback env owner flags operation baton).1,
          ThreadPlanShouldStopHere.withDefaults env baton
            (DefaultStepFromHereCallback env owner flags operation baton).2 flags) := by
  unfold ThreadPlanShouldStopHere.CheckShouldStopHereAndQueueStepOut
    ThreadPlanShouldStopHere.InvokeShouldStopHereCallback
    ThreadPlanShouldStopHere.QueueStepOutFromHerePlan
  cases h : DefaultShouldStopHereCallback env owner flags operation baton <;>
    simp [ThreadPlanShouldStopHere.withDefaults, DefaultShouldStopHereSlot,
      DefaultStepFromHereSlot, h]

/-- Dispatch with both default policies, run a second time on the object the first run
left behind, returns the same request as the first run, and both runs leave the flags as
they were. -/
theorem CheckShouldStopHereAndQueueStepOut_withDefaults_twice (env : Collaborators)
    (baton : Baton) (owner : ThreadPlan) (flags : Flags) (operation : FrameComparison) :
    (((ThreadPlanShouldStopHere.withDefaults env baton owner
        flags).CheckShouldStopHereAndQueueStepOut
        operation).2.CheckShouldStopHereAndQueueStepOut operation).1 =
      ((ThreadPlanShouldStopHere.withDefaults env baton owner
        flags).CheckShouldStopHereAndQueueStepOut operation).1 ∧
    ((ThreadPlanShouldStopHere.withDefaults env baton owner
        flags).CheckShouldStopHereAndQueueStepOut operation).2.m_flags = flags ∧
    (((ThreadPlanShouldStopHere.withDefaults env baton owner
        flags).CheckShouldStopHereAndQueueStepOut
        operation).2.CheckShouldStopHereAndQueueStepOut operation).2.m_flags = flags := by
  obtain ⟨hkind, hframe, hprocess⟩ :=
    DefaultStepFromHereCallback_plan env owner flags operation baton
  rw [CheckShouldStopHereAndQueueStepOut_withDefaults env baton owner flags operation]
  by_cases hstop : DefaultShouldStopHereCallback env owner flags operation baton = true
  · rw [if_pos hstop]
    simp only
    rw [CheckShouldStopHereAndQueueStepOut_withDefaults env baton owner flags operation,
      if_pos hstop]
    exact ⟨rfl, rfl, rfl⟩
  · rw [if_neg hstop]
    simp only
    rw [CheckShouldStopHereAndQueueStepOut_withDefaults env baton _ flags operation,
      DefaultShouldStopHereCallback_congr env owner _ flags operation baton hframe hprocess,
      if_neg hstop]
    exact ⟨DefaultStepFromHereCallback_congr env owner _ flags operation baton hkind hframe
      hprocess, rfl, rfl⟩

/-- C11: Dispatch with the default strategy is idempotent. For every landing state
(frames, debug information, line entry, symbol, thunk classification, kind of the owning
plan, flags, comparison), a second Dispatch on the state the first one left behind
returns the same request as the first: the same kind (none, step-in-range,
step-over-range or step-out) and the same address range. The first call leaves the
decision flags unchanged, and it leaves frame 0 and the kind of the owning plan as they
were. The last part states the same for the object as the constructor builds it. -/
theorem C11_dispatch_twice_same_request (env : Collaborators) (baton : Baton)
    (owner : ThreadPlan) (flags : Flags) (operation : FrameComparison) :
    (((ThreadPlanShouldStopHere.withDefaults env baton owner
          flags).CheckShouldStopHereAndQueueStepOut
          operation).2.CheckShouldStopHereAndQueueStepOut operation).1.map QueuedPlan.GetKind =
      ((ThreadPlanShouldStopHere.withDefaults env baton owner
          flags).CheckShouldStopHereAndQueueStepOut operation).1.map QueuedPlan.GetKind ∧
    (((ThreadPlanShouldStopHere.withDefaults env baton owner
          flags).CheckShouldStopHereAndQueueStepOut
          operation).2.CheckShouldStopHereAndQueueStepOut operation).1.bind QueuedPlan.GetRange =
      ((ThreadPlanShouldStopHere.withDefaults env baton owner
          flags).CheckShouldStopHereAndQueueStepOut operation).1.bind QueuedPlan.GetRange ∧
    (((ThreadPlanShouldStopHere.withDefaults env baton owner
          flags).CheckShouldStopHereAndQueueStepOut
          operation).2.CheckShouldStopHereAndQueueStepOut operation).1 =
      ((ThreadPlanShouldStopHere.withDefaults env baton owner
          flags).CheckShouldStopHereAndQueueStepOut operation).1 ∧
    ((ThreadPlanShouldStopHere.withDefaults env baton owner
        flags).CheckShouldStopHereAndQueueStepOut operation).2.m_flags = flags ∧
    ((ThreadPlanShouldStopHere.withDefaults env baton owner
        flags).CheckShouldStopHereAndQueueStepOut
        operation).2.m_owner.GetThread.GetStackFrameAtIndex 0 =
      owner.GetThread.GetStackFrameAtIndex 0 ∧
    ((ThreadPlanShouldStopHere.withDefaults env baton owner
        flags).CheckShouldStopHereAndQueueStepOut operation).2.m_owner.GetKind =
      owner.GetKind ∧
    (((ThreadPlanShouldStopHere.new env owner).CheckShouldStopHereAndQueueStepOut
        operation).2.CheckShouldStopHereAndQueueStepOut operation).1 =
      ((ThreadPlanShouldStopHere.new env owner).CheckShouldStopHereAndQueueStepOut
        operation).1 := by
  obtain ⟨hsame, hflags, _⟩ :=
    CheckShouldStopHereAndQueueStepOut_withDefaults_twice env baton owner flags operation
  obtain ⟨hkind, hframe, _⟩ :=
    DefaultStepFromHereCallback_plan env owner flags operation baton
  refine ⟨by rw [hsame], by rw [hsame], hsame, hflags, ?_, ?_,
    (CheckShouldStopHereAndQueueStepOut_withDefaults_twice env 0 owner ⟨eNone⟩ operation).1⟩
  · rw [CheckShouldStopHereAndQueueStepOut_withDefaults env baton owner flags operation]
    split
    · rfl
    · exact hframe
  · rw [CheckShouldStopHereAndQueueStepOut_withDefaults env baton owner flags operation]
    split
    · rfl
    · exact hkind

/-! ## When the request is range-bound -/

/-- The local `just_step_out` ends up true for a symbol classified as a runtime thunk. -/
theorem justStepOut_of_thunk (env : Collaborators) (process_sp : Process)
    (sc : SymbolContext) (symbol : Symbol) (hsymbol : sc.symbol = some symbol)
    (hthunk : env.IsSymbolAnyRuntimeThunk process_sp symbol = true) :
    justStepOut env process_sp sc = true := by
  unfold justStepOut
  rw [hsymbol]
  simp [hthunk]

/-- C12: with frame 0 present, the default step-from-here policy answers with a
range-bound request (step-in-range or step-over-range) only if the line entry of frame 0
is line zero and its symbol is not classified as a runtime thunk. Whenever the line
number is not zero, or the symbol is a runtime thunk, it answers with the unconditional
step-out request, for every flag setting, comparison, kind of the requesting plan and
address range. -/
theorem C12_range_bound_only_line_zero_no_thunk (env : Collaborators)
    (current_plan : ThreadPlan) (flags : Flags) (operation : FrameComparison)
    (baton : Baton) (frame : StackFrame)
    (hframe : current_plan.GetThread.GetStackFrameAtIndex 0 = some frame) :
    (∀ plan, (DefaultStepFromHereCallback env current_plan flags operation baton).1 = some plan →
      plan.IsRangeBound = true →
      (frame.GetSymbolContext env).line_entry.line = 0 ∧
      ∀ symbol, (frame.GetSymbolContext env).symbol = some symbol →
        env.IsSymbolAnyRuntimeThunk current_plan.GetThread.GetProcess symbol = false) ∧
    ((frame.GetSymbolContext env).line_entry.line ≠ 0 →
      (DefaultStepFromHereCallback env current_plan flags operation baton).1 =
        some (.StepOutNoShouldStop false none true false .eVoteNo .eVoteNoOpinion 0 true)) ∧
    (∀ symbol, (frame.GetSymbolContext env).symbol = some symbol →
      env.IsSymbolAnyRuntimeThunk current_plan.GetThread.GetProcess symbol = true →
      (DefaultStepFromHereCallback env current_plan flags operation baton).1 =
        some (.StepOutNoShouldStop false none true false .eVoteNo .eVoteNoOpinion 0 true)) := by
  have hres := DefaultStepFromHereCallback_of_frame env current_plan flags operation baton
    frame hframe
  refine ⟨?_, ?_, ?_⟩
  · intro plan hplan hbound
    by_cases hcond : (frame.GetSymbolContext env).line_entry.line = 0 ∧
        justStepOut env current_plan.GetThread.GetProcess (frame.GetSymbolContext env) = false
    · refine ⟨hcond.1, ?_⟩
      intro symbol hsymbol
      cases hthunk : env.IsSymbolAnyRuntimeThunk current_plan.GetThread.GetProcess symbol with
      | false => rfl
      | true =>
        have hjust := justStepOut_of_thunk env current_plan.GetThread.GetProcess
          (frame.GetSymbolContext env) symbol hsymbol hthunk
        rw [hcond.2] at hjust
        cases hjust
    · rw [if_neg hcond] at hres
      rw [hres] at hplan
      cases hplan
      cases hbound
  · intro hline
    rw [if_neg (fun h => hline h.1)] at hres
    exact hres
  · intro symbol hsymbol hthunk
    have hjust := justStepOut_of_thunk env current_plan.GetThread.GetProcess
      (frame.GetSymbolContext env) symbol hsymbol hthunk
    rw [if_neg (by simp [hjust])] at hres
    exact hres

/-- The sample for C12: a step-in plan on a line-zero frame whose symbol is a runtime
thunk is answered with the step-out request. -/
theorem C12_range_bound_only_line_zero_no_thunk_witness :
    (ThreadPlan.mk .eKindStepInRange
        (sampleThread ⟨true, some sampleThunk, some ⟨0, ⟨⟨4096⟩, 16⟩⟩⟩)).GetThread.GetStackFrameAtIndex 0
      = some ⟨true, some sampleThunk, some ⟨0, ⟨⟨4096⟩, 16⟩⟩⟩ ∧
    sampleEnv.IsSymbolAnyRuntimeThunk ⟨1⟩ sampleThunk = true ∧
    (DefaultStepFromHereCallback sampleEnv
        (ThreadPlan.mk .eKindStepInRange
          (sampleThread ⟨true, some sampleThunk, some ⟨0, ⟨⟨4096⟩, 16⟩⟩⟩))
        ⟨eNone⟩ .eFrameCompareYounger 0).1 =
      some (.StepOutNoShouldStop false none true false .eVoteNo .eVoteNoOpinion 0 true) :=
  ⟨rfl, rfl,
    (C12_range_bound_only_line_zero_no_thunk sampleEnv
      (ThreadPlan.mk .eKindStepInRange
        (sampleThread ⟨true, some sampleThunk, some ⟨0, ⟨⟨4096⟩, 16⟩⟩⟩))
      ⟨eNone⟩ .eFrameCompareYounger 0 ⟨true, some sampleThunk, some ⟨0, ⟨⟨4096⟩, 16⟩⟩⟩
      rfl).2.2 sampleThunk rfl rfl⟩

end lldb_private
